import Mathlib

/-!
Verification of the `ai_suggest` kitten (`kittens/ai_suggest/main.py`).

The development shallowly embeds the two core pieces of the program:

* the single-line interactive input handler (`AISuggestHandler.on_key`), and
* the suggestion resolver (`call_gemini_api`): credential check, candidate-model
  fallback loop, error classification, response parsing and code-fence stripping,

together with the thin glue in `main` (post-loop description check, try/finally
cleanup) and `handle_result` (delivery of the command to the target window).

Python strings are modelled as Lean `String`s; the handful of Python string
operations the code uses (`str.strip`, `str.split('\n')`, `'\n'.join`,
`str.startswith('```')`, `in` substring test, `str.lower`) are re-implemented
over `List Char` so that all definitions are executable and provable.
-/

namespace AISuggest

/-- Whitespace characters stripped by Python's `str.strip()` (ASCII subset:
space, tab, newline, carriage return, vertical tab, form feed). -/
def isPySpace (c : Char) : Bool :=
  c = ' ' || c = '\t' || c = '\n' || c = '\r' || c = Char.ofNat 11 || c = Char.ofNat 12

/-- Python `str.strip()` on a character list: drop leading and trailing
whitespace. -/
def pyStripL (l : List Char) : List Char :=
  ((l.dropWhile isPySpace).reverse.dropWhile isPySpace).reverse

/-- Python `str.strip()`. -/
def py_strip (s : String) : String :=
  String.mk (pyStripL s.data)

/-- Python `str.split('\n')` on a character list.  Always returns a non-empty
list of lines; `[]` splits to `[[]]`, matching Python's `''.split('\n') == ['']`. -/
def splitNl : List Char → List (List Char)
  | [] => [[]]
  | c :: cs =>
    if c = '\n' then [] :: splitNl cs
    else
      match splitNl cs with
      | [] => [[c]]
      | h :: t => (c :: h) :: t

/-- Python `'\n'.join(...)` on character lists. -/
def joinNl : List (List Char) → List Char
  | [] => []
  | [l] => l
  | l :: ls => l ++ '\n' :: joinNl ls

/-- The markdown code-fence delimiter checked by
`command.startswith('```')` in the source. -/
def fenceMarker : List Char := "```".data

/-- Python `command.startswith('```')`. -/
def startsWithFence (l : List Char) : Bool :=
  decide (l.take 3 = fenceMarker)

/-- The response-text sanitisation performed inline in `call_gemini_api`:

    command = parts[0]['text'].strip()
    if command.startswith('```'):
        lines = command.split('\n')
        command = '\n'.join(lines[1:-1]) if len(lines) > 2 else command
    return command.strip()
-/
def strip_code_fence (text : String) : String :=
  let command := pyStripL text.data
  let command :=
    if startsWithFence command then
      let lines := splitNl command
      if lines.length > 2 then joinNl ((lines.drop 1).dropLast) else command
    else command
  String.mk (pyStripL command)

example : strip_code_fence "```\nls -la\n```" = "ls -la" := by decide

example : strip_code_fence "  ls -la\n" = "ls -la" := by decide

example : strip_code_fence "```sh\nls -la\npwd" = "ls -la" := by decide

/-- Python `'404' in str(e) or 'not found' in str(e).lower()`, the test the
generic `except Exception` handler uses to decide whether an error counts as a
"model not found" condition. -/
def contains404OrNotFound (s : String) : Bool :=
  decide ("404".data <:+: s.data) || decide ("not found".data <:+: s.data.map Char.toLower)

/-- One element of `parts` in the response JSON; `text = some t` models the
presence of a `'text'` key (`'text' in parts[0]`). -/
structure Part where
  text : Option String
deriving DecidableEq

/-- One element of `candidates`.  The source reads
`result['candidates'][0].get('content', {}).get('parts', [])`; a missing
`content` and a `content` with a missing `parts` both yield `[]`, so both are
modelled as `parts = []`. -/
structure Candidate where
  parts : List Part
deriving DecidableEq

/-- The parsed JSON body of a successful HTTP response.
`candidates = none` models the absence of the `'candidates'` key
(`'candidates' in result` is false). -/
structure ApiResponse where
  candidates : Option (List Candidate)
deriving DecidableEq

/-- Outcome of one `urllib.request.urlopen` call (plus JSON decoding) for one
candidate model.  `http_error code errStr body` is a raised
`urllib.error.HTTPError` with status `code`, `str(e) = errStr` and
`e.read().decode('utf-8') = body`; `other_error errStr` is any other raised
exception (e.g. `URLError`, timeout) with `str(e) = errStr`. -/
inductive NetResult where
  | ok (resp : ApiResponse)
  | http_error (code : Nat) (errStr : String) (body : String)
  | other_error (errStr : String)
deriving DecidableEq

/-- The remote endpoint, as a function from the candidate model name and the
request prompt to the outcome of the network call. -/
def Endpoint : Type := String → String → NetResult

/-- An exception value recorded in the `last_error` accumulator. -/
inductive PyError where
  | http_error (code : Nat) (errStr : String) (body : String)
  | generic (errStr : String)
deriving DecidableEq

/-- Python `str(e)` on a recorded error. -/
def errStrOf : PyError → String
  | .http_error _ s _ => s
  | .generic s => s

/-- Final result of `call_gemini_api`: either the returned command string, or
the message of the exception it raises. -/
inductive ResolveResult where
  | command (text : String)
  | error (msg : String)
deriving DecidableEq

/-- The in-`try` extraction of the command from a parsed response body:

    if 'candidates' in result and len(result['candidates']) > 0:
        content = result['candidates'][0].get('content', {})
        parts = content.get('parts', [])
        if parts and 'text' in parts[0]:
            command = parts[0]['text'].strip()
            ... fence stripping ...
            return command.strip()
    raise ValueError('No command generated from API response')

`some cmd` is the `return` path (with `cmd` already fence-stripped);
`none` is the `raise ValueError` path. -/
def parse_response (r : ApiResponse) : Option String :=
  match r.candidates with
  | some (c :: _) =>
    match c.parts with
    | p :: _ =>
      match p.text with
      | some t => some (strip_code_fence t)
      | none => none
    | [] => none
  | _ => none

/-- The message of the `ValueError` raised when the response carries no usable
command. -/
def noCommandMsg : String := "No command generated from API response"

/-- The `for model_name in model_names:` loop of `call_gemini_api`, with the
`last_error` accumulator made explicit.  Faithful points:

* a successful parse returns the command immediately (short-circuit);
* a parse failure raises `ValueError(noCommandMsg)`, which is caught by the
  generic `except Exception` handler and treated like any other exception;
* an `HTTPError` is recorded in `last_error` *before* the 404 test; a 404
  continues with the next candidate, any other status immediately raises
  `Exception('Gemini API error: {code} - {body}')` (a raise inside an `except`
  clause is not caught by the following clause, so it aborts the whole loop);
* any other exception continues without recording when its text contains
  `'404'` or `'not found'`, and otherwise is recorded and the loop continues;
* after the loop: if `last_error` was ever set the final message aggregates it,
  otherwise the generic "No models available" message is raised. -/
def tryModels (endpoint : Endpoint) (prompt : String) :
    List String → Option PyError → ResolveResult
  | [], none => .error "Failed to call Gemini API: No models available"
  | [], some e =>
    .error ("Failed to call Gemini API with any available model. Last error: " ++ errStrOf e)
  | m :: rest, lastError =>
    match endpoint m prompt with
    | .ok resp =>
      match parse_response resp with
      | some cmd => .command cmd
      | none =>
        if contains404OrNotFound noCommandMsg then tryModels endpoint prompt rest lastError
        else tryModels endpoint prompt rest (some (.generic noCommandMsg))
    | .http_error code eS body =>
      if code = 404 then tryModels endpoint prompt rest (some (.http_error code eS body))
      else .error ("Gemini API error: " ++ toString code ++ " - " ++ body)
    | .other_error eS =>
      if contains404OrNotFound eS then tryModels endpoint prompt rest lastError
      else tryModels endpoint prompt rest (some (.generic eS))

/-- The prompt template of `call_gemini_api`, with `description` embedded
verbatim in the two `{description}` slots of the f-string. -/
def build_prompt (description : String) : String :=
  "You are a helpful assistant that suggests terminal commands based on user descriptions.\nThe user wants to: "
    ++ description
    ++ "\n\nProvide ONLY the command that should be executed, without any explanation, comments, or markdown formatting.\nJust output the raw command that can be directly executed in a terminal.\n\nExample:\nUser: \"list all files in current directory\"\nYou: ls -la\n\nUser: \"find all python files\"\nYou: find . -name \"*.py\"\n\nNow provide the command for: "
    ++ description

/-- The fixed candidate list `model_names` of the source. -/
def model_names : List String := ["gemini-2.0-flash-exp", "gemini-1.5-flash"]

/-- The message of the `ValueError` raised when `GEMINI_API_KEY` is unset. -/
def missingKeyMsg : String := "GEMINI_API_KEY environment variable is not set"

/-- `call_gemini_api`, generalised over the candidate list (the source fixes it
to `model_names`).  `apiKey` is the result of
`os.environ.get('GEMINI_API_KEY')` (`none` when the variable is unset); the
`if not api_key` test also rejects an empty string.  The credential check
precedes the candidate loop and is performed once. -/
def call_gemini_api_with (models : List String) (apiKey : Option String)
    (endpoint : Endpoint) (description : String) : ResolveResult :=
  match apiKey with
  | none => .error missingKeyMsg
  | some k =>
    if k = "" then .error missingKeyMsg
    else tryModels endpoint (build_prompt description) models none

/-- `call_gemini_api` with the source's fixed candidate list. -/
def call_gemini_api (apiKey : Option String) (endpoint : Endpoint)
    (description : String) : ResolveResult :=
  call_gemini_api_with model_names apiKey endpoint description

/-- The mutable state of `AISuggestHandler` relevant to commit/cancel:
`buffer` is `self.line_edit.current_input` (the LineEdit is an external
component; only its current text matters here) and `description` is
`self.description`, initialised to `''` and assigned only on Enter. -/
structure Session where
  buffer : String
  description : String
deriving DecidableEq

/-- A key event as seen by `AISuggestHandler.on_key`.  `enter`, `escape` and
`ctrl_c` are the events matched explicitly; `edit f changed` abstracts any
other key: the external `self.line_edit.on_key` turns the buffer `b` into
`f b` and returns `changed` (which only decides whether a redraw happens). -/
inductive KeyEvent where
  | enter
  | escape
  | ctrl_c
  | edit (f : String → String) (changed : Bool)

/-- Result of one `on_key` dispatch: either the loop keeps editing with the
updated state, or `self.quit_loop(rc)` ends the session with exit code `rc`. -/
inductive StepResult where
  | editing (s : Session)
  | quit (s : Session) (rc : Nat)

/-- `AISuggestHandler.on_key`: Enter stores the current buffer text in
`description` and quits with code 0; Ctrl+C and Escape quit with code 1
(leaving `description` untouched); any other key is forwarded to the line
editor and the session keeps editing. -/
def on_key (s : Session) : KeyEvent → StepResult
  | .enter => .quit ⟨s.buffer, s.buffer⟩ 0
  | .ctrl_c => .quit s 1
  | .escape => .quit s 1
  | .edit f _ => .editing ⟨f s.buffer, s.description⟩

/-- The post-loop body of `main`: `if not description: return None`, otherwise
call the resolver, returning its command, or `None` after printing the error
of any exception it raised. -/
def main_after_loop (apiKey : Option String) (endpoint : Endpoint)
    (description : String) : Option String :=
  if description = "" then none
  else
    match call_gemini_api apiKey endpoint description with
    | .command c => some c
    | .error _ => none

/-- A terminal-surface operation performed by the cleanup code in `main`. -/
inductive TermOp where
  | restore_cursor
  | clear_to_end_of_screen
deriving DecidableEq

/-- The `finally:` block of `main`:
`handler.write(RESTORE_CURSOR); handler.cmd.clear_to_end_of_screen()`. -/
def session_cleanup : List TermOp := [.restore_cursor, .clear_to_end_of_screen]

/-- The whole of `main` around the session loop.  `loopOutcome` is how
`loop.loop(handler)` ends: `.ok description` when it returns normally with
`handler.description` holding `description` (the empty string when the session
was cancelled or committed empty), `.error msg` when it raises.  The result
pairs the terminal operations performed by the `try/finally` with either the
propagated exception or the returned value: Python's `finally` runs its body on
both the normal and the exceptional path before the exception continues. -/
def main_model (loopOutcome : Except String String) (apiKey : Option String)
    (endpoint : Endpoint) : List TermOp × Except String (Option String) :=
  match loopOutcome with
  | .error msg => (session_cleanup, .error msg)
  | .ok description => (session_cleanup, .ok (main_after_loop apiKey endpoint description))

/-- `handle_result`: deliver the resolved command to the target window.
`windowIdMap` is `boss.window_id_map` (`none` when the id maps to no live
window, `some w` the window handle); the result is `none` when nothing is
written and `some (w, text)` when `window.write_to_child(text)` runs on `w`. -/
def handle_result (command : Option String) (windowIdMap : Nat → Option Nat)
    (targetWindowId : Nat) : Option (Nat × String) :=
  match command with
  | none => none
  | some cmd =>
    match windowIdMap targetWindowId with
    | none => none
    | some w => some (w, cmd)

/-! ### Helper lemmas about `pyStripL` -/

/-- Dropping a prefix of `p`-satisfying elements twice is the same as once. -/
theorem dropWhile_self (p : Char → Bool) (l : List Char) :
    (l.dropWhile p).dropWhile p = l.dropWhile p := by
  induction l with
  | nil => rfl
  | cons c cs ih =>
    cases hc : p c with
    | true => rw [List.dropWhile_cons_of_pos hc, ih]
    | false =>
      rw [List.dropWhile_cons_of_neg (by simp [hc]), List.dropWhile_cons_of_neg (by simp [hc])]

/-- The head of `l.dropWhile p` never satisfies `p`. -/
theorem dropWhile_head_false (p : Char → Bool) (l : List Char) (c : Char) (t : List Char)
    (h : l.dropWhile p = c :: t) : p c = false := by
  induction l with
  | nil => simp [List.dropWhile] at h
  | cons a as ih =>
    cases hc : p a with
    | true =>
      rw [List.dropWhile_cons_of_pos hc] at h
      exact ih h
    | false =>
      rw [List.dropWhile_cons_of_neg (by simp [hc])] at h
      injection h with h1 h2
      subst h1
      exact hc

/-- `l.dropWhile p` is a suffix of `l`. -/
theorem dropWhile_append_eq (p : Char → Bool) (l : List Char) :
    ∃ s, l = s ++ l.dropWhile p := by
  induction l with
  | nil => exact ⟨[], rfl⟩
  | cons c cs ih =>
    cases hc : p c with
    | true =>
      obtain ⟨s, hs⟩ := ih
      exact ⟨c :: s, by rw [List.dropWhile_cons_of_pos hc]; exact congrArg (List.cons c) hs⟩
    | false =>
      exact ⟨[], by rw [List.dropWhile_cons_of_neg (by simp [hc])]; rfl⟩

/-- A stripped list has no leading whitespace left. -/
theorem pyStripL_lstripped (l : List Char) :
    (pyStripL l).dropWhile isPySpace = pyStripL l := by
  obtain ⟨s, hs⟩ :=
    dropWhile_append_eq isPySpace (l.dropWhile isPySpace).reverse
  show ((l.dropWhile isPySpace).reverse.dropWhile isPySpace).reverse.dropWhile isPySpace
      = ((l.dropWhile isPySpace).reverse.dropWhile isPySpace).reverse
  cases hB : ((l.dropWhile isPySpace).reverse.dropWhile isPySpace).reverse with
  | nil => rfl
  | cons c t =>
    have hA2 : l.dropWhile isPySpace = (c :: t) ++ s.reverse := by
      have h2 := congrArg List.reverse hs
      rw [List.reverse_reverse, List.reverse_append, hB] at h2
      exact h2
    have hc : isPySpace c = false :=
      dropWhile_head_false isPySpace l c (t ++ s.reverse) (by simpa using hA2)
    exact List.dropWhile_cons_of_neg (by simp [hc])

/-- Python's `strip` is idempotent (character-list version). -/
theorem pyStripL_idem (l : List Char) : pyStripL (pyStripL l) = pyStripL l := by
  have h1 := pyStripL_lstripped l
  simp only [pyStripL] at h1 ⊢
  rw [h1, List.reverse_reverse, dropWhile_self]

/-- Python's `strip` is idempotent. -/
theorem py_strip_idem (s : String) : py_strip (py_strip s) = py_strip s :=
  congrArg String.mk (pyStripL_idem s.data)

/-! ### Claim theorems -/

/-- Claim C3: in the input session, pressing Enter always ends the session
committed with exit code 0 and with the outcome text (`description`) equal to
the line buffer's content immediately prior to the event; pressing Escape or
Ctrl+C (the interrupt key) always ends the session cancelled with exit code 1,
leaving the state untouched, regardless of the buffer content. -/
theorem claim_C3_commit_cancel (s : Session) :
    on_key s KeyEvent.enter = StepResult.quit ⟨s.buffer, s.buffer⟩ 0 ∧
    on_key s KeyEvent.escape = StepResult.quit s 1 ∧
    on_key s KeyEvent.ctrl_c = StepResult.quit s 1 :=
  ⟨rfl, rfl, rfl⟩

/-- Claim C4: with no API credential configured (`GEMINI_API_KEY` unset, or set
to the empty string, which `if not api_key` also rejects) the resolver fails
with the missing-credential error.  The result is the same for every endpoint
(so no network request is issued) and for every candidate list including the
empty one (so the check happens once, before the candidate loop, not per
candidate). -/
theorem claim_C4_missing_credential (models : List String) (endpoint : Endpoint)
    (description : String) :
    call_gemini_api_with models none endpoint description = ResolveResult.error missingKeyMsg ∧
    call_gemini_api_with models (some "") endpoint description
      = ResolveResult.error missingKeyMsg ∧
    call_gemini_api none endpoint description = ResolveResult.error missingKeyMsg :=
  ⟨rfl, rfl, rfl⟩

/-- Claim C7: when the session yields an empty description (cancelled, or
committed empty — `handler.description` is `''` in both cases), `main` returns
`None` without invoking the resolver: the result is the same for every
credential and endpoint.  When the description is non-empty, `main`'s result is
exactly the resolver's outcome (command, or `None` on a resolver error), so the
resolver is invoked only with a non-empty description. -/
theorem claim_C7_empty_description (apiKey : Option String) (endpoint : Endpoint) :
    main_after_loop apiKey endpoint "" = none ∧
    main_model (Except.ok "") apiKey endpoint = (session_cleanup, Except.ok none) ∧
    (∀ d : String, d ≠ "" →
      main_after_loop apiKey endpoint d =
        (match call_gemini_api apiKey endpoint d with
         | .command c => some c
         | .error _ => none)) := by
  refine ⟨rfl, rfl, ?_⟩
  intro d hd
  simp [main_after_loop, hd]

/-- Endpoint that always times out, used to instantiate claim C7. -/
def epTimeout : Endpoint := fun _ _ => NetResult.other_error "timed out"

/-- Witness for claim C7 at the concrete description `"list files"`. -/
theorem claim_C7_empty_description_witness :
    main_after_loop none epTimeout "list files" =
      (match call_gemini_api none epTimeout "list files" with
       | .command c => some c
       | .error _ => none) :=
  (claim_C7_empty_description none epTimeout).2.2 "list files" (by decide)

/-- Claim C8: on every exit path of the session loop — normal return (commit or
cancel) or an exception raised inside the loop — the `try/finally` in `main`
performs the cleanup (restore the cursor, clear to end of screen), and an
exception still propagates after the cleanup ran. -/
theorem claim_C8_cleanup (o : Except String String) (apiKey : Option String)
    (endpoint : Endpoint) (msg : String) :
    (main_model o apiKey endpoint).1 = session_cleanup ∧
    (main_model (Except.error msg) apiKey endpoint).2 = Except.error msg := by
  constructor
  · cases o <;> rfl
  · rfl

/-- Claim C9: delivery is a no-op when there is no resolved command or when the
target window id maps to no live window; otherwise the command text is written
to the mapped window. -/
theorem claim_C9_delivery (windowIdMap : Nat → Option Nat) (t : Nat) :
    handle_result none windowIdMap t = none ∧
    (∀ c, windowIdMap t = none → handle_result (some c) windowIdMap t = none) ∧
    (∀ c w, windowIdMap t = some w → handle_result (some c) windowIdMap t = some (w, c)) := by
  refine ⟨rfl, ?_, ?_⟩
  · intro c h
    simp [handle_result, h]
  · intro c w h
    simp [handle_result, h]

/-- Window-id map with a single live window, used to instantiate claim C9. -/
def witWindowMap : Nat → Option Nat := fun i => if i = 5 then some 77 else none

/-- Witness for claim C9: no command, dead target, and live target, all at
concrete inputs. -/
theorem claim_C9_delivery_witness :
    handle_result none witWindowMap 5 = none ∧
    handle_result (some "ls") witWindowMap 9 = none ∧
    handle_result (some "ls") witWindowMap 5 = some (77, "ls") :=
  ⟨(claim_C9_delivery witWindowMap 5).1,
   (claim_C9_delivery witWindowMap 9).2.1 "ls" (by decide),
   (claim_C9_delivery witWindowMap 5).2.2 "ls" 77 (by decide)⟩

/-- Claim C5: code-fence stripping.  The concrete example
`"```\nls -la\n```"` yields exactly `"ls -la"`; in general, after trimming, a
text that begins with the fence delimiter and spans more than two lines has
its first and last lines removed and the remainder re-trimmed, and otherwise
(no leading fence, or at most two lines) the output is exactly the trimmed
input, unchanged. -/
theorem claim_C5_fence_stripping :
    strip_code_fence "```\nls -la\n```" = "ls -la" ∧
    (∀ t : String, startsWithFence (pyStripL t.data) = true →
      (splitNl (pyStripL t.data)).length > 2 →
      strip_code_fence t
        = String.mk (pyStripL (joinNl (((splitNl (pyStripL t.data)).drop 1).dropLast)))) ∧
    (∀ t : String, (startsWithFence (pyStripL t.data) = false ∨
        ¬ (splitNl (pyStripL t.data)).length > 2) →
      strip_code_fence t = py_strip t) := by
  refine ⟨by decide, ?_, ?_⟩
  · intro t h1 h2
    simp [strip_code_fence, h1, h2]
  · intro t h
    have hmain : strip_code_fence t = String.mk (pyStripL (pyStripL t.data)) := by
      rcases h with h | h
      · simp [strip_code_fence, h]
      · cases hF : startsWithFence (pyStripL t.data) <;> simp [strip_code_fence, hF, h]
    rw [hmain]
    exact congrArg String.mk (pyStripL_idem t.data)

/-- Witness for claim C5: the fenced branch at `"```a\nb\nc```"` and the
unfenced branch at `"  ls -la "`. -/
theorem claim_C5_fence_stripping_witness :
    strip_code_fence "```a\nb\nc```"
      = String.mk
          (pyStripL (joinNl (((splitNl (pyStripL ("```a\nb\nc```" : String).data)).drop 1).dropLast))) ∧
    strip_code_fence "  ls -la " = py_strip "  ls -la " :=
  ⟨claim_C5_fence_stripping.2.1 "```a\nb\nc```" (by decide) (by decide),
   claim_C5_fence_stripping.2.2 "  ls -la " (Or.inl (by decide))⟩

/-- Claim C10 (implicit): when the trimmed response text begins with the fence
delimiter and has more than two newline-separated lines, the first and the last
lines are removed unconditionally — the last line is never checked to be a
closing delimiter — so `"```sh\nls -la\npwd"` yields `"ls -la"` even though its
last line is `pwd`, not a fence. -/
theorem claim_C10_unconditional_last_line (t : String)
    (h1 : startsWithFence (pyStripL t.data) = true)
    (h2 : (splitNl (pyStripL t.data)).length > 2) :
    strip_code_fence t
      = String.mk (pyStripL (joinNl (((splitNl (pyStripL t.data)).drop 1).dropLast))) ∧
    strip_code_fence "```sh\nls -la\npwd" = "ls -la" := by
  constructor
  · simp [strip_code_fence, h1, h2]
  · decide

/-- Witness for claim C10 at the concrete input `"```sh\nls -la\npwd"`, whose
last line is not a closing fence. -/
theorem claim_C10_unconditional_last_line_witness :
    strip_code_fence "```sh\nls -la\npwd"
      = String.mk
          (pyStripL
            (joinNl (((splitNl (pyStripL ("```sh\nls -la\npwd" : String).data)).drop 1).dropLast))) ∧
    strip_code_fence "```sh\nls -la\npwd" = "ls -la" :=
  claim_C10_unconditional_last_line "```sh\nls -la\npwd" (by decide) (by decide)

/-- A parsed response whose first candidate carries the command `ls -la`. -/
def okResponse : ApiResponse := ⟨some [⟨[⟨some "ls -la"⟩]⟩]⟩

/-- Endpoint for the C1 counterexample: the first candidate model fails with
HTTP 500, the second would return a perfectly valid response. -/
def ep500ThenOk : Endpoint := fun m _ =>
  if m = "gemini-2.0-flash-exp" then
    NetResult.http_error 500 "HTTP Error 500: Internal Server Error" "boom"
  else NetResult.ok okResponse

/-- Counterexample to claim C1: when the first candidate fails with a non-404
HTTP error (HTTP 500), the code raises `Exception('Gemini API error: ...')`
immediately — the `raise` inside the `except HTTPError` clause is not caught by
the following `except Exception` clause — so the second candidate, which would
have produced the command `ls -la`, is never tried.  The claim's "records it
as the last error and continues to the next candidate" is therefore false for
HTTP-status errors. -/
theorem claim_C1_counterexample :
    call_gemini_api (some "key") ep500ThenOk "list files"
      = ResolveResult.error "Gemini API error: 500 - boom" ∧
    call_gemini_api (some "key") ep500ThenOk "list files"
      ≠ ResolveResult.command "ls -la" := by
  constructor
  · rfl
  · decide

/-- Claim C1 as amended: a non-404 *HTTP-status* error aborts the resolution
immediately with `Gemini API error: {code} - {body}` without trying further
candidates; a non-HTTP transport error (network failure, timeout) whose text
does not indicate a not-found condition is recorded as the last error and the
loop continues with the next candidate. -/
theorem claim_C1_amended (endpoint : Endpoint) (prompt m : String) (rest : List String)
    (le : Option PyError) :
    (∀ code eS body, code ≠ 404 →
      endpoint m prompt = NetResult.http_error code eS body →
      tryModels endpoint prompt (m :: rest) le
        = ResolveResult.error ("Gemini API error: " ++ toString code ++ " - " ++ body)) ∧
    (∀ eS, endpoint m prompt = NetResult.other_error eS →
      contains404OrNotFound eS = false →
      tryModels endpoint prompt (m :: rest) le
        = tryModels endpoint prompt rest (some (PyError.generic eS))) := by
  constructor
  · intro code eS body hc he
    simp [tryModels, he, hc]
  · intro eS he hn
    simp [tryModels, he, hn]

/-- Endpoint used to instantiate the amended claim C1: model `m1` fails with
HTTP 500, any other model with a plain network timeout. -/
def epWitC1 : Endpoint := fun m _ =>
  if m = "m1" then NetResult.http_error 500 "HTTP Error 500" "oops"
  else NetResult.other_error "connection timed out"

/-- Witness for the amended claim C1 at concrete inputs: the HTTP-500 abort and
the timeout continuation. -/
theorem claim_C1_amended_witness :
    tryModels epWitC1 "p" ["m1"] none
      = ResolveResult.error ("Gemini API error: " ++ toString 500 ++ " - " ++ "oops") ∧
    tryModels epWitC1 "p" ["m2", "m1"] none
      = tryModels epWitC1 "p" ["m1"] (some (PyError.generic "connection timed out")) :=
  ⟨(claim_C1_amended epWitC1 "p" "m1" [] none).1 500 "HTTP Error 500" "oops"
      (by decide) (by decide),
   (claim_C1_amended epWitC1 "p" "m2" ["m1"] none).2 "connection timed out"
      (by decide) (by decide)⟩

/-- Endpoint for the C2 counterexample: every candidate model fails with an
HTTP 404. -/
def ep404Both : Endpoint := fun _ _ =>
  NetResult.http_error 404 "HTTP Error 404: Not Found" "model not found"

/-- Counterexample to claim C2: when every candidate returns a 404 HTTP error,
the `except HTTPError` handler stores the error in `last_error` *before* the
404 test, so the final outcome carries the aggregated
`Failed to call Gemini API with any available model. Last error: ...` message,
not the generic `No models available` message the claim requires. -/
theorem claim_C2_counterexample :
    call_gemini_api (some "key") ep404Both "list files"
      = ResolveResult.error
          "Failed to call Gemini API with any available model. Last error: HTTP Error 404: Not Found" ∧
    call_gemini_api (some "key") ep404Both "list files"
      ≠ ResolveResult.error "Failed to call Gemini API: No models available" := by
  constructor
  · rfl
  · decide

/-- Claim C2 as amended: if every candidate fails with an HTTP-status 404, the
outcome is `Failed` with the aggregated message ending in the string of the
last 404 error; the generic `No models available` message is produced exactly
when no error was ever recorded, e.g. when every candidate failed with a
non-HTTP exception whose text contains `404` or `not found` (such errors are
skipped without being recorded as the last error). -/
theorem claim_C2_amended (endpoint : Endpoint) (k d : String) (hk : ¬ k = "") :
    (∀ s1 b1 s2 b2,
      endpoint "gemini-2.0-flash-exp" (build_prompt d) = NetResult.http_error 404 s1 b1 →
      endpoint "gemini-1.5-flash" (build_prompt d) = NetResult.http_error 404 s2 b2 →
      call_gemini_api (some k) endpoint d
        = ResolveResult.error
            ("Failed to call Gemini API with any available model. Last error: " ++ s2)) ∧
    (∀ t1 t2,
      endpoint "gemini-2.0-flash-exp" (build_prompt d) = NetResult.other_error t1 →
      endpoint "gemini-1.5-flash" (build_prompt d) = NetResult.other_error t2 →
      contains404OrNotFound t1 = true → contains404OrNotFound t2 = true →
      call_gemini_api (some k) endpoint d
        = ResolveResult.error "Failed to call Gemini API: No models available") := by
  constructor
  · intro s1 b1 s2 b2 h1 h2
    simp [call_gemini_api, call_gemini_api_with, model_names, hk, tryModels, h1, h2, errStrOf]
  · intro t1 t2 h1 h2 hc1 hc2
    simp [call_gemini_api, call_gemini_api_with, model_names, hk, tryModels, h1, h2, hc1, hc2]

/-- Endpoint used to instantiate the amended claim C2: both candidate models
404, with distinguishable error strings. -/
def epWit404 : Endpoint := fun m _ =>
  if m = "gemini-2.0-flash-exp" then NetResult.http_error 404 "HTTP Error 404: A" "x"
  else NetResult.http_error 404 "HTTP Error 404: B" "y"

/-- Witness for the amended claim C2: the aggregated message carries the
second (last) candidate's error string. -/
theorem claim_C2_amended_witness :
    call_gemini_api (some "key") epWit404 "d"
      = ResolveResult.error
          ("Failed to call Gemini API with any available model. Last error: "
            ++ "HTTP Error 404: B") :=
  (claim_C2_amended epWit404 "key" "d" (by decide)).1
    "HTTP Error 404: A" "x" "HTTP Error 404: B" "y" (by decide) (by decide)

/-- Claim C6: for the candidate list `[A, B]` (the source's fixed
`model_names`), if candidate A fails with a 404 HTTP error and candidate B
returns a response that parses to a command, the final outcome is that command
(short-circuiting, never `Failed`). -/
theorem claim_C6_fallback_success (endpoint : Endpoint) (k d : String) (hk : ¬ k = "")
    (s1 b1 : String) (resp : ApiResponse) (cmd : String)
    (hA : endpoint "gemini-2.0-flash-exp" (build_prompt d) = NetResult.http_error 404 s1 b1)
    (hB : endpoint "gemini-1.5-flash" (build_prompt d) = NetResult.ok resp)
    (hP : parse_response resp = some cmd) :
    call_gemini_api (some k) endpoint d = ResolveResult.command cmd := by
  simp [call_gemini_api, call_gemini_api_with, model_names, hk, tryModels, hA, hB, hP]

/-- Endpoint used to instantiate claim C6: the first candidate 404s, the
second returns a valid response. -/
def epWitC6 : Endpoint := fun m _ =>
  if m = "gemini-2.0-flash-exp" then
    NetResult.http_error 404 "HTTP Error 404: Not Found" ""
  else NetResult.ok okResponse

/-- Witness for claim C6 at concrete inputs: candidate A 404s, candidate B
yields `ls -la`. -/
theorem claim_C6_fallback_success_witness :
    call_gemini_api (some "key") epWitC6 "list files" = ResolveResult.command "ls -la" :=
  claim_C6_fallback_success epWitC6 "key" "list files" (by decide)
    "HTTP Error 404: Not Found" "" okResponse "ls -la" (by decide) (by decide) (by decide)

end AISuggest
